import Mathlib

/-!
Verification of the pyedb configuration layer (`pyedb/configuration/cfg_operations.py`
and the spec-described stackup/sources/setups handlers) via a shallow embedding.

The live layout database (`pedb`) is modelled as an explicit state value; the
Python methods become state-passing Lean functions.  Python `None` returns are
`Option.none`; a Python runtime error (an uncaught `IndexError`) is
`Except.error`.
-/

namespace PyedbCfg

/-- A layout primitive as seen through `pedb.layout` / `pedb.nets`:
it sits on a layer (`p.layer.name`), belongs to a net, and carries polygon
points (`p.polygon_data.points`), modelled as integer pairs. -/
structure Prim where
  layer : String
  net : String
  points : List (Int × Int)
deriving Repr, DecidableEq

/-- The slice of the live database state that `cfg_operations.py` reads and
writes: `stackup.all_layers` (layer names), the keys of `nets.nets`
(iterated in dictionary order), and the layout primitives. -/
structure Db where
  layers : List String
  nets : List String
  prims : List Prim
deriving Repr, DecidableEq

/-- `pedb.layout.find_primitive(layer_name=l)`: the primitives on layer `l`. -/
def find_primitive (db : Db) (layer_name : String) : List Prim :=
  db.prims.filter (fun p => p.layer == layer_name)

/-- `nets.nets[n].primitives`: the primitives belonging to net `n`. -/
def netPrimitives (db : Db) (n : String) : List Prim :=
  db.prims.filter (fun p => p.net == n)

/-- The dictionary returned by `CfgCutout.export_properties`. -/
structure ExportProps where
  signal_list : Option (List String)
  reference_list : Option (List String)
  custom_extent : Option (List (Int × Int))
deriving Repr, DecidableEq

/-- The attribute state of a `CfgCutout` object, field for field as set by
`CfgCutout.__init__`; a field absent from the kwargs is `none`, and
`custom_extent_units` defaults to `"meter"`. -/
structure CfgCutout where
  signal_list : Option (List String) := none
  reference_list : Option (List String) := none
  extent_type : Option String := none
  expansion_size : Option String := none
  use_round_corner : Option Bool := none
  output_aedb_path : Option String := none
  open_cutout_at_end : Option Bool := none
  use_pyaedt_cutout : Option Bool := none
  number_of_threads : Option Nat := none
  use_pyaedt_extent_computing : Option Bool := none
  extent_defeature : Option String := none
  remove_single_pin_components : Option Bool := none
  custom_extent : Option (List (Int × Int)) := none
  custom_extent_units : String := "meter"
  include_partial_instances : Option Bool := none
  keep_voids : Option Bool := none
  check_terminals : Option Bool := none
  include_pingroups : Option Bool := none
  expansion_factor : Option String := none
  maximum_iterations : Option Nat := none
  preserve_components_with_model : Option Bool := none
  simple_pad_check : Option Bool := none
  keep_lines_as_path : Option Bool := none
deriving Repr, DecidableEq

/-- The net-collection loop of `CfgCutout.get_data_from_db`: for each net
(in dictionary order) the code reads `obj.primitives[0].layer.name`; on a net
with no primitives that subscript raises `IndexError` (modelled as
`Except.error`); a net whose first primitive lies on `"pyedb_cutout"` is
skipped, every other net is appended (the `len(obj.primitives) > 0` guard is
then always true). -/
def collectSignalNets (db : Db) : List String → Except String (List String)
  | [] => .ok []
  | n :: rest =>
    match netPrimitives db n with
    | [] => .error "IndexError: list index out of range"
    | p :: _ =>
      if p.layer == "pyedb_cutout" then collectSignalNets db rest
      else do
        let tail ← collectSignalNets db rest
        .ok (n :: tail)

/-- `CfgCutout.export_properties`. -/
def CfgCutout.export_properties (self : CfgCutout) : ExportProps :=
  { signal_list := self.signal_list
    reference_list := self.reference_list
    custom_extent := self.custom_extent }

/-- `CfgCutout.get_data_from_db`: if the sentinel layer `"pyedb_cutout"` is in
the stackup, optionally refresh `custom_extent` / `signal_list` /
`reference_list` from the database and return `export_properties()`;
otherwise fall off the end of the method (Python returns `None`). -/
def CfgCutout.get_data_from_db (self : CfgCutout) (db : Db) :
    Except String (CfgCutout × Option ExportProps) :=
  if "pyedb_cutout" ∈ db.layers then
    match find_primitive db "pyedb_cutout" with
    | [] => .ok (self, some self.export_properties)
    | poly :: _ => do
      let self := { self with custom_extent := some poly.points }
      let net_names ← collectSignalNets db db.nets
      let self := { self with reference_list := some [], signal_list := some net_names }
      .ok (self, some self.export_properties)
  else
    .ok (self, none)

/-- The kwargs mapping under the `"cutout"` key of the operations data, as the
attribute record it induces: `CfgCutout.__init__` copies each kwarg field for
field, so the mapping is modelled by the record of present (`some`) and absent
(`none`) values. -/
structure CutoutKwargs where
  signal_list : Option (List String) := none
  reference_list : Option (List String) := none
  extent_type : Option String := none
  expansion_size : Option String := none
  use_round_corner : Option Bool := none
  output_aedb_path : Option String := none
  open_cutout_at_end : Option Bool := none
  use_pyaedt_cutout : Option Bool := none
  number_of_threads : Option Nat := none
  use_pyaedt_extent_computing : Option Bool := none
  extent_defeature : Option String := none
  remove_single_pin_components : Option Bool := none
  custom_extent : Option (List (Int × Int)) := none
  custom_extent_units : Option String := none
  include_partial_instances : Option Bool := none
  keep_voids : Option Bool := none
  check_terminals : Option Bool := none
  include_pingroups : Option Bool := none
  expansion_factor : Option String := none
  maximum_iterations : Option Nat := none
  preserve_components_with_model : Option Bool := none
  simple_pad_check : Option Bool := none
  keep_lines_as_path : Option Bool := none
deriving Repr, DecidableEq

/-- `CfgCutout.__init__(pedb, **kwargs)`: each attribute is `kwargs.get(...)`,
with `custom_extent_units` defaulting to `"meter"`. -/
def CfgCutout.ofKwargs (k : CutoutKwargs) : CfgCutout :=
  { signal_list := k.signal_list
    reference_list := k.reference_list
    extent_type := k.extent_type
    expansion_size := k.expansion_size
    use_round_corner := k.use_round_corner
    output_aedb_path := k.output_aedb_path
    open_cutout_at_end := k.open_cutout_at_end
    use_pyaedt_cutout := k.use_pyaedt_cutout
    number_of_threads := k.number_of_threads
    use_pyaedt_extent_computing := k.use_pyaedt_extent_computing
    extent_defeature := k.extent_defeature
    remove_single_pin_components := k.remove_single_pin_components
    custom_extent := k.custom_extent
    custom_extent_units := k.custom_extent_units.getD "meter"
    include_partial_instances := k.include_partial_instances
    keep_voids := k.keep_voids
    check_terminals := k.check_terminals
    include_pingroups := k.include_pingroups
    expansion_factor := k.expansion_factor
    maximum_iterations := k.maximum_iterations
    preserve_components_with_model := k.preserve_components_with_model
    simple_pad_check := k.simple_pad_check
    keep_lines_as_path := k.keep_lines_as_path }

/-- The operations data mapping passed to `CfgOperations.__init__`: it may or
may not contain a `"cutout"` key. -/
structure OpsData where
  cutout : Option CutoutKwargs
deriving Repr, DecidableEq

/-- The attribute state of a `CfgOperations` object. -/
structure CfgOperations where
  op_cutout : Option CfgCutout
deriving Repr, DecidableEq

/-- `CfgOperations.__init__`: `op_cutout` is `CfgCutout(pedb, **data["cutout"])`
when the `"cutout"` key is present, else `None`. -/
def CfgOperations.init (data : OpsData) : CfgOperations :=
  { op_cutout := data.cutout.map CfgCutout.ofKwargs }

/-- `pedb.stackup.add_document_layer(name=...)`, an external-engine call
modelled by its observable effect on the stackup: the named layer is added. -/
def add_document_layer (db : Db) (name : String) : Db :=
  { db with layers := db.layers ++ [name] }

/-- `pedb.modeler.create_polygon(points, layer_name, net_name)`, an
external-engine call modelled by its observable effect: one polygon primitive
is added on the given layer and net, creating the net if it is absent. -/
def create_polygon (db : Db) (points : List (Int × Int)) (layer_name net_name : String) : Db :=
  { db with
    prims := db.prims ++ [⟨layer_name, net_name, points⟩]
    nets := if net_name ∈ db.nets then db.nets else db.nets ++ [net_name] }

/-- `CfgOperations.apply`: if `op_cutout` is set, run the external cutout
computation (`pedb.cutout(**op_cutout.get_attributes())`, abstracted as a
state transformer `cutoutFn` also returning the boundary polygon points), then
— only when `"pyedb_cutout"` is not already in the stackup — add the sentinel
document layer and write the boundary polygon onto it with net name
`"pyedb_cutout"`. -/
def CfgOperations.apply (cutoutFn : CfgCutout → Db → Db × List (Int × Int))
    (self : CfgOperations) (db : Db) : Db :=
  match self.op_cutout with
  | none => db
  | some c =>
    let res := cutoutFn c db
    let db1 := res.1
    if "pyedb_cutout" ∈ db1.layers then db1
    else create_polygon (add_document_layer db1 "pyedb_cutout") res.2 "pyedb_cutout" "pyedb_cutout"

/-- `CfgOperations.get_data_from_db`: overwrite `self.op_cutout` with a fresh
`CfgCutout(self._pedb)` (no kwargs), read the database through it, and return
`{"cutout": data}` when the returned dictionary is truthy (it always has the
three keys of `export_properties`, hence is truthy whenever not `None`),
else `{}` (modelled as `none`). -/
def CfgOperations.get_data_from_db (self : CfgOperations) (db : Db) :
    Except String (CfgOperations × Option ExportProps) := do
  let fresh : CfgCutout := {}
  let res ← fresh.get_data_from_db db
  let self := { self with op_cutout := some res.1 }
  match res.2 with
  | some d => .ok (self, some d)
  | none => .ok (self, none)

/-- The classification actually used by the net-collection loop: whether the
FIRST primitive of net `n` lies on the sentinel layer (`false` also when the
net has no primitives, although the loop errors in that case). -/
def firstPrimOnSentinel (db : Db) (n : String) : Bool :=
  match netPrimitives db n with
  | [] => false
  | p :: _ => p.layer == "pyedb_cutout"

theorem collectSignalNets_eq_filter (db : Db) (ns : List String)
    (h : ∀ n ∈ ns, netPrimitives db n ≠ []) :
    collectSignalNets db ns = .ok (ns.filter (fun n => ! firstPrimOnSentinel db n)) := by
  induction ns with
  | nil => rfl
  | cons n rest ih =>
    have hn : netPrimitives db n ≠ [] := h n (List.mem_cons_self n rest)
    have hrest : ∀ m ∈ rest, netPrimitives db m ≠ [] :=
      fun m hm => h m (List.mem_cons_of_mem n hm)
    unfold collectSignalNets
    cases hps : netPrimitives db n with
    | nil => exact absurd hps hn
    | cons p ps =>
      by_cases hl : p.layer = "pyedb_cutout"
      · have hb : firstPrimOnSentinel db n = true := by
          unfold firstPrimOnSentinel
          rw [hps]
          simp [hl]
        simp [hl, ih hrest, hb]
      · have hb : firstPrimOnSentinel db n = false := by
          unfold firstPrimOnSentinel
          rw [hps]
          simp [hl]
        simp [hl, ih hrest, hb]
        rfl

/-! ### The cutout database used as the C1 counterexample.

The sentinel layer is present and holds the recorded boundary polygon; net
`"A"` has its first primitive on the sentinel layer and a second primitive on
layer `"L1"`, so it is not confined to the sentinel layer, yet the export
loop skips it because only `obj.primitives[0]` is inspected. -/

def ptsBoundary : List (Int × Int) := [(0, 0), (4, 0), (4, 4), (0, 4)]

def dbC1 : Db :=
  { layers := ["L1", "pyedb_cutout"]
    nets := ["pyedb_cutout", "A"]
    prims :=
      [⟨"pyedb_cutout", "pyedb_cutout", ptsBoundary⟩,
       ⟨"pyedb_cutout", "A", [(0, 0), (1, 0), (1, 1)]⟩,
       ⟨"L1", "A", [(2, 2), (3, 2), (3, 3)]⟩] }

/-- C1 (counterexample): in `dbC1` the sentinel layer exists and holds a
primitive, net `"A"` has a primitive on another layer (`"L1"`), so the claim
requires `"A"` in the exported `signal_list`; but the code exports
`signal_list = []` because it classifies each net by its first primitive
only. -/
theorem cutout_export_signal_partition_cex :
    ("pyedb_cutout" ∈ dbC1.layers ∧ find_primitive dbC1 "pyedb_cutout" ≠ []) ∧
    (({} : CfgCutout).get_data_from_db dbC1 =
      .ok ({ custom_extent := some ptsBoundary, reference_list := some [], signal_list := some [] },
        some { signal_list := some [], reference_list := some [], custom_extent := some ptsBoundary })) ∧
    (⟨"L1", "A", [(2, 2), (3, 2), (3, 3)]⟩ : Prim) ∈ netPrimitives dbC1 "A" ∧
    ("L1" : String) ≠ "pyedb_cutout" ∧
    ("A" : String) ∉ ([] : List String) := by
  refine ⟨by decide, ?_, by decide, by decide, by decide⟩
  rfl

/-- C1 (amended): when the sentinel layer `"pyedb_cutout"` exists, holds at
least one primitive, and every net has at least one primitive,
`CfgCutout.get_data_from_db` exports `custom_extent` as the first sentinel
primitive's points, `reference_list` as the empty list, and `signal_list` as
exactly those nets whose FIRST primitive lies off the sentinel layer. -/
theorem cutout_export_signal_first_primitive (self : CfgCutout) (db : Db)
    (poly : Prim) (rest : List Prim)
    (h1 : "pyedb_cutout" ∈ db.layers)
    (h2 : find_primitive db "pyedb_cutout" = poly :: rest)
    (h3 : ∀ n ∈ db.nets, netPrimitives db n ≠ []) :
    ∃ c', self.get_data_from_db db = .ok (c', some c'.export_properties) ∧
      c'.reference_list = some [] ∧
      c'.custom_extent = some poly.points ∧
      ∃ L, c'.signal_list = some L ∧
        ∀ n, n ∈ L ↔ n ∈ db.nets ∧ firstPrimOnSentinel db n = false := by
  classical
  let L := db.nets.filter (fun n => ! firstPrimOnSentinel db n)
  let c' : CfgCutout :=
    { self with
      custom_extent := some poly.points
      reference_list := some []
      signal_list := some L }
  refine ⟨c', ?_, rfl, rfl, L, rfl, ?_⟩
  · unfold CfgCutout.get_data_from_db
    rw [if_pos h1, h2]
    simp only [collectSignalNets_eq_filter db db.nets h3]
    rfl
  · intro n
    simp [L, List.mem_filter]

/-- C1 (amended, witness): concrete evaluation on `dbC1`. -/
theorem cutout_export_signal_first_primitive_witness :
    ∃ c', (({} : CfgCutout).get_data_from_db dbC1) = .ok (c', some c'.export_properties) ∧
      c'.reference_list = some [] ∧
      c'.custom_extent = some (⟨"pyedb_cutout", "pyedb_cutout", ptsBoundary⟩ : Prim).points ∧
      ∃ L, c'.signal_list = some L ∧
        ∀ n, n ∈ L ↔ n ∈ dbC1.nets ∧ firstPrimOnSentinel dbC1 n = false :=
  cutout_export_signal_first_primitive {} dbC1
    ⟨"pyedb_cutout", "pyedb_cutout", ptsBoundary⟩
    [⟨"pyedb_cutout", "A", [(0, 0), (1, 0), (1, 1)]⟩]
    (by decide) (by decide) (by decide)

/-- C2: when the sentinel layer `"pyedb_cutout"` is absent from the stackup,
`CfgCutout.get_data_from_db` returns `None` without raising, and
`CfgOperations.get_data_from_db` consequently returns the empty mapping. -/
theorem cutout_export_absent_sentinel (self : CfgCutout) (o : CfgOperations) (db : Db)
    (h : "pyedb_cutout" ∉ db.layers) :
    self.get_data_from_db db = .ok (self, none) ∧
    o.get_data_from_db db = .ok ({ op_cutout := some ({} : CfgCutout) }, none) := by
  have hfresh : ({} : CfgCutout).get_data_from_db db = .ok ({}, none) := by
    unfold CfgCutout.get_data_from_db
    rw [if_neg h]
  refine ⟨by unfold CfgCutout.get_data_from_db; rw [if_neg h], ?_⟩
  unfold CfgOperations.get_data_from_db
  simp only [hfresh]
  rfl

/-- C2 (witness): concrete evaluation on a database without the sentinel. -/
theorem cutout_export_absent_sentinel_witness :
    (({} : CfgCutout).get_data_from_db ⟨["L1"], ["A"], [⟨"L1", "A", []⟩]⟩ =
      .ok (({} : CfgCutout), none)) ∧
    ((⟨none⟩ : CfgOperations).get_data_from_db ⟨["L1"], ["A"], [⟨"L1", "A", []⟩]⟩ =
      .ok ({ op_cutout := some ({} : CfgCutout) }, none)) :=
  cutout_export_absent_sentinel {} ⟨none⟩ ⟨["L1"], ["A"], [⟨"L1", "A", []⟩]⟩ (by decide)

/-- C10: when the sentinel layer exists but `layout.find_primitive` finds no
primitive on it, `CfgCutout.get_data_from_db` still returns the export
dictionary, so `CfgOperations.get_data_from_db` returns
`{"cutout": {...}}` with all three fields `None` rather than `{}`. -/
theorem cutout_export_sentinel_no_primitive (o : CfgOperations) (db : Db)
    (h1 : "pyedb_cutout" ∈ db.layers)
    (h2 : find_primitive db "pyedb_cutout" = []) :
    o.get_data_from_db db =
      .ok ({ op_cutout := some ({} : CfgCutout) },
        some { signal_list := none, reference_list := none, custom_extent := none }) := by
  have hfresh : ({} : CfgCutout).get_data_from_db db =
      .ok ({}, some { signal_list := none, reference_list := none, custom_extent := none }) := by
    unfold CfgCutout.get_data_from_db
    rw [if_pos h1, h2]
    rfl
  unfold CfgOperations.get_data_from_db
  simp only [hfresh]
  rfl

/-- C10 (witness): concrete evaluation on a database whose sentinel layer is
empty. -/
theorem cutout_export_sentinel_no_primitive_witness :
    (⟨none⟩ : CfgOperations).get_data_from_db ⟨["L1", "pyedb_cutout"], ["A"], [⟨"L1", "A", []⟩]⟩ =
      .ok ({ op_cutout := some ({} : CfgCutout) },
        some { signal_list := none, reference_list := none, custom_extent := none }) :=
  cutout_export_sentinel_no_primitive ⟨none⟩ _ (by decide) (by decide)

/-- C7: `CfgOperations.get_data_from_db` is independent of any previously
loaded cutout configuration: an object whose cutout section was loaded with
arbitrary kwargs and one loaded with none produce identical results on every
database state, because the method installs a fresh `CfgCutout` first. -/
theorem ops_export_independent_of_loaded_cutout (k : CutoutKwargs) (db : Db) :
    (CfgOperations.init ⟨some k⟩).get_data_from_db db =
    (CfgOperations.init ⟨none⟩).get_data_from_db db := by
  rfl

/-- C9: when the operations data has no `"cutout"` key, `op_cutout` is `None`
and `apply` leaves the database unchanged under every possible external cutout
engine — no database call is made. -/
theorem ops_missing_cutout_skipped (data : OpsData) (h : data.cutout = none)
    (cutoutFn : CfgCutout → Db → Db × List (Int × Int)) (db : Db) :
    (CfgOperations.init data).op_cutout = none ∧
    CfgOperations.apply cutoutFn (CfgOperations.init data) db = db := by
  have hinit : CfgOperations.init data = ⟨none⟩ := by
    unfold CfgOperations.init
    rw [h]
    rfl
  rw [hinit]
  exact ⟨rfl, rfl⟩

/-- C9 (witness): concrete evaluation with an empty operations mapping. -/
theorem ops_missing_cutout_skipped_witness :
    (CfgOperations.init ⟨none⟩).op_cutout = none ∧
    CfgOperations.apply (fun _ d => (d, [])) (CfgOperations.init ⟨none⟩)
        ⟨["L1"], ["A"], [⟨"L1", "A", []⟩]⟩ =
      ⟨["L1"], ["A"], [⟨"L1", "A", []⟩]⟩ :=
  ops_missing_cutout_skipped ⟨none⟩ rfl (fun _ d => (d, [])) _

/-- C3: `CfgOperations.apply` is idempotent on the database state.  The
external cutout computation is abstracted as `cutoutFn`; the hypothesis says
the external engine leaves a database already carrying the sentinel marker
unchanged (re-cutting an already-cut design is a no-op).  The sentinel layer
and its boundary polygon are only created when the layer is absent, so the
second apply adds no second sentinel layer and no second polygon. -/
theorem ops_apply_idempotent (cutoutFn : CfgCutout → Db → Db × List (Int × Int))
    (o : CfgOperations) (db : Db)
    (hfix : ∀ c d, "pyedb_cutout" ∈ d.layers → (cutoutFn c d).1 = d) :
    CfgOperations.apply cutoutFn o (CfgOperations.apply cutoutFn o db) =
      CfgOperations.apply cutoutFn o db := by
  cases ho : o.op_cutout with
  | none =>
    have hid : ∀ d, CfgOperations.apply cutoutFn o d = d := by
      intro d
      unfold CfgOperations.apply
      rw [ho]
    rw [hid, hid]
  | some c =>
    have key : ∀ d, "pyedb_cutout" ∈ d.layers → CfgOperations.apply cutoutFn o d = d := by
      intro d hd
      unfold CfgOperations.apply
      rw [ho]
      simp [hfix c d hd, hd]
    have hsent : "pyedb_cutout" ∈ (CfgOperations.apply cutoutFn o db).layers := by
      unfold CfgOperations.apply
      rw [ho]
      by_cases h1 : "pyedb_cutout" ∈ (cutoutFn c db).1.layers
      · simp only [if_pos h1]
        exact h1
      · simp [h1, create_polygon, add_document_layer]
    exact key _ hsent

/-- C3 (witness): concrete evaluation with an identity-on-state cutout
engine. -/
theorem ops_apply_idempotent_witness :
    CfgOperations.apply (fun _ d => (d, ptsBoundary)) (CfgOperations.init ⟨some {}⟩)
        (CfgOperations.apply (fun _ d => (d, ptsBoundary)) (CfgOperations.init ⟨some {}⟩)
          ⟨["L1"], ["A"], [⟨"L1", "A", []⟩]⟩) =
      CfgOperations.apply (fun _ d => (d, ptsBoundary)) (CfgOperations.init ⟨some {}⟩)
        ⟨["L1"], ["A"], [⟨"L1", "A", []⟩]⟩ :=
  ops_apply_idempotent _ _ _ (fun _ _ _ => rfl)

/-! ## Stackup layer rename (spec-modelled)

The stackup/padstacks handlers are not among the provided source files; the
definitions below are modelled from the spec and exercised by
`test_13_stackup_layers`. -/

/-- Modelled from the spec: a padstack instance carries a layer range
(`start_layer` / `stop_layer` names into the stackup). -/
structure PadstackInstance where
  start_layer : String
  stop_layer : String
deriving Repr, DecidableEq

/-- Modelled from the spec: the stackup slice of the database — the ordered
layer list plus the padstack instances referencing it. -/
structure StackupDb where
  layers : List String
  instances : List PadstackInstance
deriving Repr, DecidableEq

/-- The rename applied to a single layer-name reference. -/
def renameLayerRef (old new l : String) : String := if l == old then new else l

/-- The rename cascaded onto one padstack instance's layer range. -/
def cascadeInstance (old new : String) (i : PadstackInstance) : PadstackInstance :=
  { start_layer := renameLayerRef old new i.start_layer
    stop_layer := renameLayerRef old new i.stop_layer }

/-- Modelled from the spec: the stackup handler's layer-rename operation —
renaming a layer cascades to every padstack instance whose start/stop layer
references the old name, in the same atomic step (a single state
transition). -/
def applyLayerRename (old new : String) (db : StackupDb) : StackupDb :=
  { layers := db.layers.map (renameLayerRef old new)
    instances := db.instances.map (cascadeInstance old new) }

/-- Every padstack instance references only layers present in the stackup. -/
def instancesWellFormed (db : StackupDb) : Prop :=
  ∀ i ∈ db.instances, i.start_layer ∈ db.layers ∧ i.stop_layer ∈ db.layers

/-- C4: after a layer rename, every padstack instance whose start or stop
layer referenced the old name references the new name, every instance is
rewritten by the same single-step cascade as the stackup itself, and no
instance references a layer name absent from the new stackup (given that the
instances were well formed before the rename). -/
theorem rename_cascades_padstack_instances (old new : String) (db : StackupDb)
    (hwf : instancesWellFormed db) :
    ((applyLayerRename old new db).instances = db.instances.map (cascadeInstance old new)) ∧
    (∀ i ∈ db.instances, (i.start_layer = old → (cascadeInstance old new i).start_layer = new) ∧
      (i.stop_layer = old → (cascadeInstance old new i).stop_layer = new)) ∧
    instancesWellFormed (applyLayerRename old new db) := by
  refine ⟨rfl, ?_, ?_⟩
  · intro i _
    constructor
    · intro h
      simp [cascadeInstance, renameLayerRef, h]
    · intro h
      simp [cascadeInstance, renameLayerRef, h]
  · intro j hj
    rw [applyLayerRename] at hj
    simp only [List.mem_map] at hj
    obtain ⟨i, hi, rfl⟩ := hj
    obtain ⟨hs, ht⟩ := hwf i hi
    constructor
    · exact List.mem_map.mpr ⟨i.start_layer, hs, rfl⟩
    · exact List.mem_map.mpr ⟨i.stop_layer, ht, rfl⟩

/-- C4 (witness): the rename `Inner1(GND1) → Inner1` on a two-layer stackup
with one via spanning both layers. -/
theorem rename_cascades_padstack_instances_witness :
    ((applyLayerRename "Inner1(GND1)" "Inner1"
        ⟨["1_Top", "Inner1(GND1)"], [⟨"1_Top", "Inner1(GND1)"⟩]⟩).instances =
      [⟨"1_Top", "Inner1(GND1)"⟩].map (cascadeInstance "Inner1(GND1)" "Inner1")) ∧
    (∀ i ∈ [(⟨"1_Top", "Inner1(GND1)"⟩ : PadstackInstance)],
      (i.start_layer = "Inner1(GND1)" →
        (cascadeInstance "Inner1(GND1)" "Inner1" i).start_layer = "Inner1") ∧
      (i.stop_layer = "Inner1(GND1)" →
        (cascadeInstance "Inner1(GND1)" "Inner1" i).stop_layer = "Inner1")) ∧
    instancesWellFormed (applyLayerRename "Inner1(GND1)" "Inner1"
      ⟨["1_Top", "Inner1(GND1)"], [⟨"1_Top", "Inner1(GND1)"⟩]⟩) :=
  rename_cascades_padstack_instances "Inner1(GND1)" "Inner1"
    ⟨["1_Top", "Inner1(GND1)"], [⟨"1_Top", "Inner1(GND1)"⟩]⟩
    (by intro i hi
        simp only [List.mem_singleton] at hi
        subst hi
        exact ⟨by decide, by decide⟩)

/-! ## Net/net sources (spec-modelled)

The ports/sources handlers are not among the provided source files; the
definitions below are modelled from the spec and exercised by
`test_15b_sources_net_net` and `test_15c_sources_net_net_distributed`. -/

/-- Modelled from the spec: a net/net source (or port) entry of the
configuration document — a name, a reference designator, an electrical type
and magnitude, the `distributed` flag, and positive/negative net names. -/
structure CfgSourceEntry where
  name : String
  reference_designator : String
  type : String
  magnitude : Rat
  distributed : Bool
  positive_net : String
  negative_net : String
deriving Repr, DecidableEq

/-- A terminal reference as it appears in an exported entry. -/
inductive TermRef where
  | net (n : String)
  | pin (p : String)
  | pin_group (n : String)
deriving Repr, DecidableEq

/-- A source terminal pair as stored in the database after `apply`. -/
structure AppliedSource where
  name : String
  reference_designator : String
  type : String
  magnitude : Rat
  positive_terminal : TermRef
  negative_terminal : TermRef
deriving Repr, DecidableEq

/-- The sources slice of the database: the pin groups (in creation order) and
the applied source terminals. -/
structure SourcesDb where
  pin_groups : List String
  sources : List AppliedSource
deriving Repr, DecidableEq

/-- The deterministic backing pin-group name for the positive side of entry
`e`: `pg_<name>_<reference_designator>`. -/
def pgName (e : CfgSourceEntry) : String :=
  "pg_" ++ e.name ++ "_" ++ e.reference_designator

/-- The deterministic backing pin-group name for the negative side:
`pg_<name>_<reference_designator>_ref`. -/
def pgRefName (e : CfgSourceEntry) : String := pgName e ++ "_ref"

/-- Create a pin group if one with that name does not already exist. -/
def addPinGroup (db : SourcesDb) (n : String) : SourcesDb :=
  if n ∈ db.pin_groups then db else { db with pin_groups := db.pin_groups ++ [n] }

/-- Modelled from the spec (sources handler not in the provided sources):
applying a net/net source entry, where `pins` are the pins of the positive
net found on the entry's reference designator.  With `distributed = false`
both sides are wrapped into implicitly created, deterministically named pin
groups and a single terminal pair carries the entry's magnitude and type.
With `distributed = true` the entry expands into one independent terminal per
matching pin, each with an independently suffixed name; the magnitude is
divided evenly over the pins — the repository test applies magnitude 117
over 117 matching pins and asserts each exported magnitude is 1. -/
def applySourceNetNet (e : CfgSourceEntry) (pins : List String) (db : SourcesDb) : SourcesDb :=
  if e.distributed then
    { db with
      sources := db.sources ++ pins.map (fun p =>
        { name := e.name ++ "_" ++ p
          reference_designator := e.reference_designator
          type := e.type
          magnitude := e.magnitude / (pins.length : Rat)
          positive_terminal := TermRef.pin p
          negative_terminal := TermRef.net e.negative_net }) }
  else
    let db1 := addPinGroup (addPinGroup db (pgName e)) (pgRefName e)
    { db1 with
      sources := db1.sources ++
        [{ name := e.name
           reference_designator := e.reference_designator
           type := e.type
           magnitude := e.magnitude
           positive_terminal := TermRef.pin_group (pgName e)
           negative_terminal := TermRef.pin_group (pgRefName e) }] }

/-- Re-export of the sources domain (`get_data_from_db` followed by
`export_properties`): one entry per applied source. -/
def exportSources (db : SourcesDb) : List AppliedSource := db.sources

theorem mem_addPinGroup_self (db : SourcesDb) (n : String) :
    n ∈ (addPinGroup db n).pin_groups := by
  unfold addPinGroup
  by_cases h : n ∈ db.pin_groups
  · simp [h]
  · simp [h]

theorem mem_addPinGroup_of_mem (db : SourcesDb) (n m : String) (h : m ∈ db.pin_groups) :
    m ∈ (addPinGroup db n).pin_groups := by
  unfold addPinGroup
  by_cases hn : n ∈ db.pin_groups <;> simp [hn, h]

theorem addPinGroup_sources (db : SourcesDb) (n : String) :
    (addPinGroup db n).sources = db.sources := by
  unfold addPinGroup
  by_cases hn : n ∈ db.pin_groups <;> simp [hn]

/-- The distributed current-source entry of
`test_15c_sources_net_net_distributed`. -/
def eDistributed : CfgSourceEntry :=
  { name := "ISOURCE"
    reference_designator := "U1"
    type := "current"
    magnitude := 117
    distributed := true
    positive_net := "1V0"
    negative_net := "GND" }

/-- 117 pins of net `1V0` on `U1`, the pin count exercised by the test. -/
def pins117 : List String := (List.range 117).map (fun i => "p" ++ toString i)

/-- C5 (counterexample): applying the distributed entry of the repository
test (magnitude 117 over 117 matching pins) and re-exporting yields 117
entries whose magnitude is 1, not the original 117 — the magnitude is
divided per pin, contradicting "the same magnitude as the original entry". -/
theorem distributed_source_same_magnitude_cex :
    eDistributed.distributed = true ∧
    eDistributed.magnitude = 117 ∧
    (exportSources (applySourceNetNet eDistributed pins117 ⟨[], []⟩)).length = 117 ∧
    ((exportSources (applySourceNetNet eDistributed pins117 ⟨[], []⟩)).head?.map
      AppliedSource.magnitude = some 1) ∧
    (1 : Rat) ≠ 117 := by
  refine ⟨rfl, rfl, rfl, ?_, by norm_num⟩
  have h1 : (exportSources (applySourceNetNet eDistributed pins117 ⟨[], []⟩)).head?.map
      AppliedSource.magnitude = some (eDistributed.magnitude / (pins117.length : Rat)) := rfl
  have h2 : pins117.length = 117 := by
    unfold pins117
    rw [List.length_map, List.length_range]
  rw [h1, h2]
  norm_num [eDistributed]

/-- C5 (amended): a `distributed = true` net/net entry matching `N` pins
re-exports as exactly `N` independent entries, each with the original entry's
`type` and `reference_designator`, and with magnitude equal to the original
magnitude divided by `N`. -/
theorem distributed_source_expansion (e : CfgSourceEntry) (pins : List String) (db : SourcesDb)
    (hd : e.distributed = true) (hdb : db.sources = []) :
    (exportSources (applySourceNetNet e pins db)).length = pins.length ∧
    ∀ s ∈ exportSources (applySourceNetNet e pins db),
      s.type = e.type ∧ s.reference_designator = e.reference_designator ∧
      s.magnitude = e.magnitude / (pins.length : Rat) := by
  have happ : exportSources (applySourceNetNet e pins db) =
      db.sources ++ pins.map (fun p =>
        { name := e.name ++ "_" ++ p
          reference_designator := e.reference_designator
          type := e.type
          magnitude := e.magnitude / (pins.length : Rat)
          positive_terminal := TermRef.pin p
          negative_terminal := TermRef.net e.negative_net }) := by
    unfold exportSources applySourceNetNet
    rw [hd]
    rfl
  rw [happ, hdb]
  constructor
  · simp
  · intro s hs
    simp only [List.nil_append, List.mem_map] at hs
    obtain ⟨p, _, rfl⟩ := hs
    exact ⟨rfl, rfl, rfl⟩

/-- C5 (amended, witness): concrete evaluation on the test's entry. -/
theorem distributed_source_expansion_witness :
    (exportSources (applySourceNetNet eDistributed pins117 ⟨[], []⟩)).length = pins117.length ∧
    ∀ s ∈ exportSources (applySourceNetNet eDistributed pins117 ⟨[], []⟩),
      s.type = eDistributed.type ∧
      s.reference_designator = eDistributed.reference_designator ∧
      s.magnitude = eDistributed.magnitude / (pins117.length : Rat) :=
  distributed_source_expansion eDistributed pins117 ⟨[], []⟩ rfl rfl

/-- The voltage source entry of `test_15b_sources_net_net`. -/
def eNetNet : CfgSourceEntry :=
  { name := "VSOURCE_U2_1V0_GND"
    reference_designator := "U2"
    type := "voltage"
    magnitude := 1
    distributed := false
    positive_net := "1V0"
    negative_net := "GND" }

/-- C6: applying a net/net entry named `<name>` on reference designator
`<rd>` (not distributed) implicitly creates backing pin groups named
`pg_<name>_<rd>` and `pg_<name>_<rd>_ref`, and the re-export reproduces the
entry's magnitude and type with the positive and negative terminals expressed
as those pin-group references. -/
theorem net_net_source_pin_groups (e : CfgSourceEntry) (pins : List String) (db : SourcesDb)
    (hd : e.distributed = false) :
    pgName e = "pg_" ++ e.name ++ "_" ++ e.reference_designator ∧
    pgRefName e = "pg_" ++ e.name ++ "_" ++ e.reference_designator ++ "_ref" ∧
    pgName e ∈ (applySourceNetNet e pins db).pin_groups ∧
    pgRefName e ∈ (applySourceNetNet e pins db).pin_groups ∧
    ({ name := e.name
       reference_designator := e.reference_designator
       type := e.type
       magnitude := e.magnitude
       positive_terminal := TermRef.pin_group (pgName e)
       negative_terminal := TermRef.pin_group (pgRefName e) } : AppliedSource) ∈
      exportSources (applySourceNetNet e pins db) := by
  have happ : applySourceNetNet e pins db =
      { addPinGroup (addPinGroup db (pgName e)) (pgRefName e) with
        sources := (addPinGroup (addPinGroup db (pgName e)) (pgRefName e)).sources ++
          [{ name := e.name
             reference_designator := e.reference_designator
             type := e.type
             magnitude := e.magnitude
             positive_terminal := TermRef.pin_group (pgName e)
             negative_terminal := TermRef.pin_group (pgRefName e) }] } := by
    unfold applySourceNetNet
    rw [hd]
    rfl
  refine ⟨rfl, rfl, ?_, ?_, ?_⟩
  · rw [happ]
    exact mem_addPinGroup_of_mem _ _ _ (mem_addPinGroup_self db (pgName e))
  · rw [happ]
    exact mem_addPinGroup_self _ _
  · rw [happ]
    unfold exportSources
    exact List.mem_append_right _ (List.mem_singleton.mpr rfl)

/-- C6 (witness): concrete evaluation on the test's voltage source entry. -/
theorem net_net_source_pin_groups_witness :
    pgName eNetNet = "pg_" ++ eNetNet.name ++ "_" ++ eNetNet.reference_designator ∧
    pgRefName eNetNet = "pg_" ++ eNetNet.name ++ "_" ++ eNetNet.reference_designator ++ "_ref" ∧
    pgName eNetNet ∈ (applySourceNetNet eNetNet [] ⟨[], []⟩).pin_groups ∧
    pgRefName eNetNet ∈ (applySourceNetNet eNetNet [] ⟨[], []⟩).pin_groups ∧
    ({ name := eNetNet.name
       reference_designator := eNetNet.reference_designator
       type := eNetNet.type
       magnitude := eNetNet.magnitude
       positive_terminal := TermRef.pin_group (pgName eNetNet)
       negative_terminal := TermRef.pin_group (pgRefName eNetNet) } : AppliedSource) ∈
      exportSources (applySourceNetNet eNetNet [] ⟨[], []⟩) :=
  net_net_source_pin_groups eNetNet [] ⟨[], []⟩ rfl

/-! ## Setups export coercion (spec-modelled)

The setups handler is not among the provided source files; the definitions
below are modelled from the spec ("flat property bags copied field-for-field
with typed coercion on export") and exercised by `test_01_setups`.  The
export returns numeric fields as decimal strings; a decimal string is
modelled as its little-endian digit list, and the `int()` / `float()`
coercions as evaluating those digits. -/

/-- Modelled from the spec: the flat fields of a solver setup entry.
`max_num_passes` is an integer field and `max_mag_delta_s` a (decimal)
numeric field; the remaining fields are plain strings. -/
structure CfgSetup where
  name : String
  type : String
  f_adapt : String
  max_num_passes : Nat
  max_mag_delta_s : Rat
deriving Repr, DecidableEq

/-- The exported shape of a setup: numeric fields come back as decimal
strings (digit lists; the rational field as sign, numerator digits and
denominator digits), string fields verbatim. -/
structure ExportedSetup where
  name : String
  type : String
  f_adapt : String
  max_num_passes : List Nat
  max_mag_delta_s : Bool × List Nat × List Nat
deriving Repr, DecidableEq

/-- Render an integer field as its decimal-digit string. -/
def serializeNat (n : Nat) : List Nat := Nat.digits 10 n

/-- The `int()` coercion applied to a decimal-digit string. -/
def intCoerce (ds : List Nat) : Nat := Nat.ofDigits 10 ds

/-- Render a rational numeric field as a decimal string: sign, numerator
digits, denominator digits. -/
def serializeRat (q : Rat) : Bool × List Nat × List Nat :=
  (decide (q.num < 0), Nat.digits 10 q.num.natAbs, Nat.digits 10 q.den)

/-- The `float()` coercion applied to a rendered rational. -/
def floatCoerce (s : Bool × List Nat × List Nat) : Rat :=
  (((if s.1 then -((Nat.ofDigits 10 s.2.1 : Nat) : Int)
      else ((Nat.ofDigits 10 s.2.1 : Nat) : Int)) : Int) : Rat) /
    ((Nat.ofDigits 10 s.2.2 : Nat) : Rat)

/-- Modelled from the spec: applying a setup stores its fields in the
database, overwriting any setup of the same name. -/
def applySetup (s : CfgSetup) (db : List CfgSetup) : List CfgSetup :=
  (db.filter (fun t => t.name ≠ s.name)) ++ [s]

/-- Export of one stored setup: string fields verbatim, numeric fields as
decimal strings. -/
def exportSetup (t : CfgSetup) : ExportedSetup :=
  { name := t.name
    type := t.type
    f_adapt := t.f_adapt
    max_num_passes := serializeNat t.max_num_passes
    max_mag_delta_s := serializeRat t.max_mag_delta_s }

/-- `get_data_from_db(setups=True)`: export every stored setup. -/
def exportSetups (db : List CfgSetup) : List ExportedSetup := db.map exportSetup

theorem intCoerce_serializeNat (n : Nat) : intCoerce (serializeNat n) = n :=
  Nat.ofDigits_digits 10 n

theorem floatCoerce_serializeRat (q : Rat) : floatCoerce (serializeRat q) = q := by
  unfold floatCoerce serializeRat
  by_cases h : q.num < 0
  · have hn : (-(q.num.natAbs : Int)) = q.num := by omega
    simp only [h, Nat.ofDigits_digits, decide_eq_true_eq, if_pos]
    rw [hn]
    exact_mod_cast Rat.num_div_den q
  · have hn : ((q.num.natAbs : Int)) = q.num := by omega
    simp only [h, Nat.ofDigits_digits, decide_eq_true_eq, if_neg, not_false_iff]
    rw [hn]
    exact_mod_cast Rat.num_div_den q

/-- C8: after applying a setup and re-exporting with
`get_data_from_db(setups=True)`, the exported entry's string-rendered numeric
fields compare equal to the applied values after `int()` / `float()`
coercion, and every other flat field compares equal verbatim. -/
theorem setups_export_coercion_roundtrip (s : CfgSetup) (db : List CfgSetup) :
    ∃ t ∈ exportSetups (applySetup s db),
      t.name = s.name ∧ t.type = s.type ∧ t.f_adapt = s.f_adapt ∧
      intCoerce t.max_num_passes = s.max_num_passes ∧
      floatCoerce t.max_mag_delta_s = s.max_mag_delta_s := by
  refine ⟨exportSetup s, ?_, rfl, rfl, rfl, intCoerce_serializeNat s.max_num_passes,
    floatCoerce_serializeRat s.max_mag_delta_s⟩
  unfold exportSetups applySetup
  exact List.mem_map.mpr ⟨s, List.mem_append_right _ (List.mem_singleton.mpr rfl), rfl⟩

end PyedbCfg
